import Mathlib

/-!
# Escrow & wallet consistency engine — shallow embedding

A shallow embedding of the be-bantuin marketplace core: the order state
machine (`src/orders/orders.service.ts`), the two payment-service variants
(payments controller/service files), the wallet/withdrawal service
(`wallet.service.ts`), and the admin dispute resolver
(`src/admin/admin.service.ts`).

Modelling conventions:
* statuses and ledger-entry types are the `String` literals of the source;
* monetary amounts are integers (`Nat` for prices, `Int` for signed ledger
  amounts and balances) — the source stores Rupiah in whole units;
* `Math.round(n / 100)` on a nonnegative integer `n` is `(n + 50) / 100`
  in natural-number division (JavaScript rounds halves up);
* timestamps (`cancelledAt`, `resolvedAt`, ...) are modelled as `Bool`
  flags recording whether the field was set;
* cryptographic digests (`crypto.createHash`, `createHmac`) and
  `parseFloat` are external library functions; they are taken as function
  parameters of the embedded operations, which keep the source's exact
  call structure (what is concatenated, in which order, what is compared);
* a thrown NestJS exception aborts the enclosing unit of work before any
  write in every embedded path, so fallible operations return
  `Except AppError _` and an `error` result means the state is unchanged.
-/

/-- NestJS exception taxonomy used by the services. -/
inductive AppError where
  | notFound (msg : String)
  | badRequest (msg : String)
  | forbidden (msg : String)
  | conflict (msg : String)
  | internal (msg : String)
  deriving Repr, DecidableEq

/-- One `WalletTransaction` row: an immutable, signed ledger entry. -/
structure LedgerEntry where
  walletId : String
  type : String
  amount : Int
  refOrderId : Option String := none
  refWithdrawalId : Option String := none
  deriving Repr, DecidableEq

/-- A wallet row: owner-scoped balance. -/
structure Wallet where
  id : String
  balance : Int
  deriving Repr, DecidableEq

/-- An order row, with the fields the embedded transitions touch.
`sellerId` stands for `order.service.sellerId` of the source. -/
structure Order where
  id : String
  buyerId : String
  sellerId : String
  status : String
  isPaid : Bool
  price : Nat
  revisionCount : Nat
  maxRevisions : Nat
  cancelledAt : Bool := false
  cancellationReason : Option String := none
  deriving Repr, DecidableEq

/-- Sum of the signed amounts of the entries of one wallet that reference
one order — the wallet's combined ledger net for that order. -/
def ledgerNetFor (es : List LedgerEntry) (walletId orderId : String) : Int :=
  (es.filter (fun e => e.walletId == walletId && e.refOrderId == some orderId)).foldl
    (fun a e => a + e.amount) 0

namespace OrdersService

/-- `OrdersService.requestRevision` (orders.service.ts): access check via
`findOneWithAccess` (buyer only), `delivered` guard, revision-quota guard,
then sets status `revision` and increments `revisionCount`. -/
def requestRevision (order : Order) (buyerId : String) : Except AppError Order :=
  if order.buyerId = buyerId then
    if order.status = "delivered" then
      if order.revisionCount >= order.maxRevisions then
        .error (.badRequest "Anda sudah menggunakan semua jatah revisi yang tersedia")
      else
        .ok { order with status := "revision", revisionCount := order.revisionCount + 1 }
    else
      .error (.badRequest "Revisi hanya bisa diminta setelah hasil dikirim")
  else
    .error (.notFound "Order tidak ditemukan")

end OrdersService

/-- C8: for an order in status `delivered` requested by its buyer,
`requestRevision` fails with the quota-exceeded error exactly when
`revisionCount ≥ maxRevisions`; when `revisionCount = maxRevisions − 1`
(stated as `revisionCount + 1 = maxRevisions`) it succeeds, sets status
`revision` and increments `revisionCount` to exactly `maxRevisions`; and
every successful call preserves `revisionCount ≤ maxRevisions`. -/
theorem C8_requestRevision_boundary (o : Order) (b : String)
    (hb : o.buyerId = b) (hs : o.status = "delivered") :
    (OrdersService.requestRevision o b =
        .error (.badRequest "Anda sudah menggunakan semua jatah revisi yang tersedia")
      ↔ o.maxRevisions ≤ o.revisionCount)
    ∧ (o.revisionCount + 1 = o.maxRevisions →
        OrdersService.requestRevision o b =
          .ok { o with status := "revision", revisionCount := o.maxRevisions })
    ∧ (∀ o2, OrdersService.requestRevision o b = .ok o2 →
        o2.revisionCount ≤ o2.maxRevisions) := by
  unfold OrdersService.requestRevision
  rw [if_pos hb, if_pos hs]
  refine ⟨?_, ?_, ?_⟩
  · constructor
    · intro h
      by_contra hlt
      rw [if_neg (by omega)] at h
      exact absurd h (by simp)
    · intro h
      rw [if_pos (by omega)]
  · intro h
    rw [if_neg (by omega), h]
  · intro o2 h
    by_cases hq : o.revisionCount >= o.maxRevisions
    · rw [if_pos hq] at h
      exact absurd h (by simp)
    · rw [if_neg hq] at h
      simp only [Except.ok.injEq] at h
      subst h
      simp only []
      omega

/-- A concrete delivered order with one of two revisions used. -/
def c8order : Order :=
  { id := "o1", buyerId := "b1", sellerId := "s1", status := "delivered",
    isPaid := true, price := 100000, revisionCount := 1, maxRevisions := 2 }

/-- Witness for C8 at a concrete delivered order with
`revisionCount = 1 = maxRevisions − 1`. -/
theorem C8_requestRevision_boundary_witness :
    OrdersService.requestRevision c8order "b1" =
      .ok { c8order with status := "revision", revisionCount := 2 } := by
  have h := C8_requestRevision_boundary c8order "b1" rfl rfl
  exact h.2.1 rfl

namespace WalletService

/-- `WALLET_CONSTANTS.MIN_BALANCE` (wallet.type.ts). -/
def MIN_BALANCE : Int := 0

/-- `WALLET_CONSTANTS.MAX_PENDING_WITHDRAWALS` (wallet.type.ts). -/
def MAX_PENDING_WITHDRAWALS : Nat := 3

/-- `WALLET_CONSTANTS.WITHDRAWAL_FEE_FIXED` (wallet.type.ts). -/
def WITHDRAWAL_FEE_FIXED : Nat := 5000

/-- `WALLET_CONSTANTS.WITHDRAWAL_FEE_PERCENTAGE` (wallet.type.ts). -/
def WITHDRAWAL_FEE_PERCENTAGE : Nat := 0

/-- `calculateWithdrawalFee` (wallet.type.ts): fixed fee plus
`Math.round(amount × pct / 100)`. -/
def calculateWithdrawalFee (amount : Nat) : Nat :=
  WITHDRAWAL_FEE_FIXED + (amount * WITHDRAWAL_FEE_PERCENTAGE + 50) / 100

/-- `calculateNetWithdrawalAmount` (wallet.type.ts). -/
def calculateNetWithdrawalAmount (grossAmount : Nat) : Nat × Nat × Int :=
  let fee := calculateWithdrawalFee grossAmount
  (grossAmount, fee, (grossAmount : Int) - fee)

/-- A `Withdrawal` row (the fields the workflow touches). -/
structure Withdrawal where
  id : String
  userId : String
  walletId : String
  amount : Nat
  fee : Nat
  netAmount : Int
  status : String
  adminNotes : Option String := none
  processedBy : Option String := none
  deriving Repr, DecidableEq

/-- The store state a withdrawal operation touches: the seller wallet and
the wallet-transaction ledger. -/
structure WalletState where
  wallet : Wallet
  entries : List LedgerEntry
  deriving Repr, DecidableEq

/-- The ledger entry `createWithdrawal` inserts: `WITHDRAWAL`, `−amount`,
`refWithdrawalId` set. -/
def withdrawalEntry (walletId wid : String) (amount : Nat) : LedgerEntry :=
  { walletId := walletId, type := "WITHDRAWAL", amount := -(amount : Int),
    refWithdrawalId := some wid }

/-- The ledger entry every reversal path inserts: `WITHDRAWAL_REVERSAL`,
`+amount`, same `refWithdrawalId`. -/
def reversalEntry (walletId wid : String) (amount : Nat) : LedgerEntry :=
  { walletId := walletId, type := "WITHDRAWAL_REVERSAL", amount := (amount : Int),
    refWithdrawalId := some wid }

/-- `WalletService.createWithdrawal` (wallet.service.ts): available-balance
and pending-count guards, fee computation, then atomically creates the
pending withdrawal, decrements the wallet balance by the gross amount and
records one `WITHDRAWAL` entry. `wid` is the id the store assigns to the
new row; `pendingCount` is the result of the pending-withdrawals count
query. -/
def createWithdrawal (userId wid : String) (pendingCount : Nat)
    (s : WalletState) (amount : Nat) : Except AppError (Withdrawal × WalletState) :=
  let availableBalance := s.wallet.balance - MIN_BALANCE
  if availableBalance < (amount : Int) then
    .error (.badRequest "Balance tidak mencukupi")
  else if pendingCount >= MAX_PENDING_WITHDRAWALS then
    .error (.badRequest "Maksimal withdrawal pending tercapai")
  else
    let fee := calculateWithdrawalFee amount
    let net : Int := (amount : Int) - fee
    let w : Withdrawal :=
      { id := wid, userId := userId, walletId := s.wallet.id,
        amount := amount, fee := fee, netAmount := net, status := "pending" }
    .ok (w,
      { wallet := { s.wallet with balance := s.wallet.balance - amount },
        entries := withdrawalEntry s.wallet.id wid amount :: s.entries })

/-- `approveWithdrawal` (wallet.service.ts): pending → processing, no
balance change and no ledger entry. -/
def approveWithdrawal (adminId : String) (w : Withdrawal) (adminNotes : Option String)
    (s : WalletState) : Except AppError (Withdrawal × WalletState) :=
  if w.status = "pending" then
    .ok ({ w with
             status := "processing", processedBy := some adminId,
             adminNotes := some (adminNotes.getD "Withdrawal disetujui dan sedang diproses") },
      s)
  else
    .error (.badRequest "Withdrawal dengan status ini tidak bisa diapprove")

/-- `rejectWithdrawal` (wallet.service.ts): pending → cancelled, requires
admin notes; atomically restores the balance and records one
`WITHDRAWAL_REVERSAL` entry. -/
def rejectWithdrawal (adminId : String) (w : Withdrawal) (adminNotes : Option String)
    (s : WalletState) : Except AppError (Withdrawal × WalletState) :=
  if w.status = "pending" then
    match adminNotes with
    | none => .error (.badRequest "Admin notes wajib diisi untuk rejection")
    | some notes =>
      .ok ({ w with
               status := "cancelled", processedBy := some adminId,
               adminNotes := some notes },
        { wallet := { s.wallet with balance := s.wallet.balance + w.amount },
          entries := reversalEntry w.walletId w.id w.amount :: s.entries })
  else
    .error (.badRequest "Withdrawal dengan status ini tidak bisa direject")

/-- `completeWithdrawal` (wallet.service.ts): processing → completed, no
balance change and no ledger entry. -/
def completeWithdrawal (adminId : String) (w : Withdrawal) (adminNotes : Option String)
    (proofOfTransfer : Option String) (s : WalletState) :
    Except AppError (Withdrawal × WalletState) :=
  if w.status = "processing" then
    .ok ({ w with
             status := "completed",
             adminNotes := some (adminNotes.getD "Transfer berhasil") },
      s)
  else
    .error (.badRequest "Withdrawal dengan status ini tidak bisa dicomplete")

/-- `failWithdrawal` (wallet.service.ts): processing → failed, requires
admin notes; same reversal as reject. -/
def failWithdrawal (adminId : String) (w : Withdrawal) (adminNotes : Option String)
    (s : WalletState) : Except AppError (Withdrawal × WalletState) :=
  if w.status = "processing" then
    match adminNotes with
    | none => .error (.badRequest "Admin notes wajib diisi untuk failure")
    | some notes =>
      .ok ({ w with status := "failed", adminNotes := some notes },
        { wallet := { s.wallet with balance := s.wallet.balance + w.amount },
          entries := reversalEntry w.walletId w.id w.amount :: s.entries })
  else
    .error (.badRequest "Withdrawal dengan status ini tidak bisa difail")

/-- `cancelWithdrawal` (wallet.service.ts): user-initiated pending →
cancelled, ownership checked by the lookup; same reversal entry. -/
def cancelWithdrawal (userId : String) (w : Withdrawal) (reason : Option String)
    (s : WalletState) : Except AppError (Withdrawal × WalletState) :=
  if w.userId = userId then
    if w.status = "pending" then
      .ok ({ w with
               status := "cancelled",
               adminNotes := some (reason.getD "Dibatalkan oleh user") },
        { wallet := { s.wallet with balance := s.wallet.balance + w.amount },
          entries := reversalEntry w.walletId w.id w.amount :: s.entries })
    else
      .error (.badRequest "Hanya withdrawal pending yang bisa dicancel")
  else
    .error (.notFound "Withdrawal request tidak ditemukan")

end WalletService

/-- C4: after a successful `createWithdrawal` the balance drops by exactly
the gross amount with a single `WITHDRAWAL` entry of `−amount` referencing
the withdrawal; each terminal reversal (admin reject, admin fail after
approve, user cancel) restores the pre-create balance with a single
`WITHDRAWAL_REVERSAL` entry of `+amount` referencing the same withdrawal;
approve and complete change no balance and write no ledger entry. -/
theorem C4_withdrawal_hold_reversal (s : WalletService.WalletState)
    (userId wid adminId notes reason : String) (amount pendingCount : Nat)
    (h1 : (amount : Int) ≤ s.wallet.balance - WalletService.MIN_BALANCE)
    (h2 : pendingCount < WalletService.MAX_PENDING_WITHDRAWALS)
    (hfresh : ∀ e ∈ s.entries, e.refWithdrawalId ≠ some wid) :
    ∃ w s1, WalletService.createWithdrawal userId wid pendingCount s amount = .ok (w, s1)
      ∧ w.status = "pending" ∧ w.amount = amount
      ∧ s1.wallet.balance = s.wallet.balance - amount
      ∧ s1.entries = WalletService.withdrawalEntry s.wallet.id wid amount :: s.entries
      ∧ (s1.entries.filter (fun e => e.refWithdrawalId == some wid)).length = 1
      ∧ (∃ w2 s2, WalletService.rejectWithdrawal adminId w (some notes) s1 = .ok (w2, s2)
          ∧ w2.status = "cancelled"
          ∧ s2.wallet.balance = s.wallet.balance
          ∧ s2.entries = WalletService.reversalEntry w.walletId wid amount :: s1.entries
          ∧ (s2.entries.filter (fun e =>
              e.type == "WITHDRAWAL_REVERSAL" && e.refWithdrawalId == some wid)).length = 1)
      ∧ (∃ w2 s2, WalletService.cancelWithdrawal userId w (some reason) s1 = .ok (w2, s2)
          ∧ w2.status = "cancelled"
          ∧ s2.wallet.balance = s.wallet.balance
          ∧ s2.entries = WalletService.reversalEntry w.walletId wid amount :: s1.entries)
      ∧ (∃ w2, WalletService.approveWithdrawal adminId w (some notes) s1 = .ok (w2, s1)
          ∧ w2.status = "processing"
          ∧ (∃ w3 s3, WalletService.failWithdrawal adminId w2 (some notes) s1 = .ok (w3, s3)
              ∧ w3.status = "failed"
              ∧ s3.wallet.balance = s.wallet.balance
              ∧ s3.entries = WalletService.reversalEntry w.walletId wid amount :: s1.entries)
          ∧ WalletService.completeWithdrawal adminId w2 (some notes) none s1 =
              .ok ({ w2 with status := "completed", adminNotes := some notes }, s1)) := by
  unfold WalletService.createWithdrawal
  rw [if_neg (by omega), if_neg (by omega)]
  refine ⟨_, _, rfl, rfl, rfl, ?_, rfl, ?_, ?_, ?_, ?_⟩
  · simp
  · have hnil : s.entries.filter (fun e => e.refWithdrawalId == some wid) = [] := by
      rw [List.filter_eq_nil_iff]
      intro e he
      simpa using hfresh e he
    simp [WalletService.withdrawalEntry, List.filter, hnil]
  · refine ⟨_, _,
      by unfold WalletService.rejectWithdrawal; rw [if_pos rfl], rfl, ?_, rfl, ?_⟩
    · simp
    · have hnil : s.entries.filter (fun e =>
          e.type == "WITHDRAWAL_REVERSAL" && e.refWithdrawalId == some wid) = [] := by
        rw [List.filter_eq_nil_iff]
        intro e he
        simp only [Bool.and_eq_true, beq_iff_eq, not_and]
        intro _ hr
        exact hfresh e he hr
      simp [WalletService.reversalEntry, WalletService.withdrawalEntry, List.filter, hnil]
  · refine ⟨_, _,
      by unfold WalletService.cancelWithdrawal; rw [if_pos rfl, if_pos rfl], rfl, ?_, rfl⟩
    simp
  · refine ⟨_,
      by unfold WalletService.approveWithdrawal; rw [if_pos rfl], rfl, ?_, ?_⟩
    · refine ⟨_, _,
        by unfold WalletService.failWithdrawal; rw [if_pos rfl], rfl, ?_, rfl⟩
      simp
    · unfold WalletService.completeWithdrawal
      rw [if_pos rfl]
      simp [Option.getD]

/-- A concrete wallet state for the C4 witness: balance 100000, empty
ledger. -/
def c4state : WalletService.WalletState :=
  { wallet := { id := "w1", balance := 100000 }, entries := [] }

/-- Witness for C4: withdrawal of 50000 out of a 100000 balance with no
pending withdrawals. -/
theorem C4_withdrawal_hold_reversal_witness :
    ∃ w s1, WalletService.createWithdrawal "u1" "wd1" 0 c4state 50000 = .ok (w, s1)
      ∧ w.status = "pending" ∧ w.amount = 50000
      ∧ s1.wallet.balance = c4state.wallet.balance - 50000
      ∧ s1.entries = WalletService.withdrawalEntry c4state.wallet.id "wd1" 50000 :: c4state.entries
      ∧ (s1.entries.filter (fun e => e.refWithdrawalId == some "wd1")).length = 1
      ∧ (∃ w2 s2, WalletService.rejectWithdrawal "a1" w (some "rejected") s1 = .ok (w2, s2)
          ∧ w2.status = "cancelled"
          ∧ s2.wallet.balance = c4state.wallet.balance
          ∧ s2.entries = WalletService.reversalEntry w.walletId "wd1" 50000 :: s1.entries
          ∧ (s2.entries.filter (fun e =>
              e.type == "WITHDRAWAL_REVERSAL" && e.refWithdrawalId == some "wd1")).length = 1)
      ∧ (∃ w2 s2, WalletService.cancelWithdrawal "u1" w (some "changed my mind") s1 = .ok (w2, s2)
          ∧ w2.status = "cancelled"
          ∧ s2.wallet.balance = c4state.wallet.balance
          ∧ s2.entries = WalletService.reversalEntry w.walletId "wd1" 50000 :: s1.entries)
      ∧ (∃ w2, WalletService.approveWithdrawal "a1" w (some "rejected") s1 = .ok (w2, s1)
          ∧ w2.status = "processing"
          ∧ (∃ w3 s3, WalletService.failWithdrawal "a1" w2 (some "rejected") s1 = .ok (w3, s3)
              ∧ w3.status = "failed"
              ∧ s3.wallet.balance = c4state.wallet.balance
              ∧ s3.entries = WalletService.reversalEntry w.walletId "wd1" 50000 :: s1.entries)
          ∧ WalletService.completeWithdrawal "a1" w2 (some "rejected") none s1 =
              .ok ({ w2 with status := "completed", adminNotes := some "rejected" }, s1)) :=
  C4_withdrawal_hold_reversal c4state "u1" "wd1" "a1" "rejected" "changed my mind"
    50000 0 (by decide) (by decide) (by intro e he; simp [c4state] at he)

namespace PaymentsA

/-- `PAYMENT_CONSTANTS.PLATFORM_FEE_PERCENTAGE` (payment.type.ts). -/
def PLATFORM_FEE_PERCENTAGE : Nat := 5

/-- The platform fee of `releaseEscrow` (standalone payments.service.ts):
`Math.round(amount × PLATFORM_FEE_PERCENTAGE / 100)`; on a nonnegative
integer product this is `(amount × pct + 50) / 100` in `Nat` division
(JavaScript rounds halves up). -/
def platformFeeOf (amount : Nat) : Nat :=
  (amount * PLATFORM_FEE_PERCENTAGE + 50) / 100

/-- A `Payment` row of the standalone payments service. -/
structure Payment where
  id : String
  orderId : String
  transactionId : String
  status : String
  amount : Nat
  paidAmount : Nat
  deriving Repr, DecidableEq

/-- The store state one webhook delivery touches: the payment found by
`transactionId`, its order, the seller wallet (`none` until upserted) and
the wallet-transaction ledger. -/
structure PayState where
  payment : Payment
  order : Order
  wallet : Option Wallet
  entries : List LedgerEntry
  deriving Repr, DecidableEq

/-- The `ESCROW_HOLD` entry `handlePaymentSuccess` creates: `−amount`,
referencing the order; the wallet balance is not changed by a hold. -/
def escrowHoldEntry (walletId orderId : String) (amount : Nat) : LedgerEntry :=
  { walletId := walletId, type := "ESCROW_HOLD", amount := -(amount : Int),
    refOrderId := some orderId }

/-- The `ESCROW_RELEASE` entry `releaseEscrow` creates. -/
def escrowReleaseEntry (walletId orderId : String) (sellerAmount : Int) : LedgerEntry :=
  { walletId := walletId, type := "ESCROW_RELEASE", amount := sellerAmount,
    refOrderId := some orderId }

/-- The `PLATFORM_FEE` entry `releaseEscrow` creates: `−platformFee`. -/
def platformFeeEntry (walletId orderId : String) (platformFee : Nat) : LedgerEntry :=
  { walletId := walletId, type := "PLATFORM_FEE", amount := -(platformFee : Int),
    refOrderId := some orderId }

/-- `mapMidtransStatus` (payment.type.ts): normalizes gateway statuses; a
fraud flag force-maps to `failed`. -/
def mapMidtransStatus (transactionStatus : String) (fraudStatus : Option String) : String :=
  if fraudStatus = some "deny" ∨ fraudStatus = some "challenge" then "failed"
  else if transactionStatus = "capture" ∨ transactionStatus = "settlement" then "settlement"
  else if transactionStatus = "pending" then "pending"
  else if transactionStatus = "deny" ∨ transactionStatus = "failure" then "failed"
  else if transactionStatus = "cancel" then "cancelled"
  else if transactionStatus = "expire" then "expired"
  else if transactionStatus = "refund" ∨ transactionStatus = "partial_refund" then "refund"
  else "pending"

/-- The `finalStatuses` array of `handleWebhook` (payments.service.ts,
standalone variant), used for the step-4 idempotency skip. -/
def finalStatuses : List String :=
  ["settlement", "success", "refund", "failed", "expired"]

/-- The Midtrans notification payload fields the webhook reads. Midtrans
sends `gross_amount` as a string; it enters both the signature input and
(via `parseFloat`) the amount. -/
structure MidtransNotif where
  order_id : String
  transaction_status : String
  status_code : String
  gross_amount : String
  signature_key : String
  fraud_status : Option String := none
  deriving Repr, DecidableEq

/-- `WebhookValidationResult` (payment.type.ts). -/
structure WebhookValidationResult where
  isValid : Bool
  transactionStatus : Option String := none
  orderId : Option String := none
  amount : Option Nat := none
  error : Option String := none
  deriving Repr, DecidableEq

/-- `validateSignature` (standalone payments.service.ts): recomputes
`sha512(order_id ++ status_code ++ gross_amount ++ serverKey)` and compares
with `==` to the supplied `signature_key`. The digest function `hash` is an
external library call and is a parameter; the concatenation order and the
comparison are the source's. -/
def validateSignature (hash : String → String) (serverKey : String)
    (orderId statusCode grossAmount signatureKey : String) : Bool :=
  hash (orderId ++ statusCode ++ grossAmount ++ serverKey) == signatureKey

/-- `tx.wallet.upsert` of `handlePaymentSuccess`: keep the existing seller
wallet or create one with balance 0 (the id the store would generate is
modelled deterministically from the seller id). -/
def upsertWallet (sellerId : String) (w : Option Wallet) : Wallet :=
  w.getD { id := sellerId ++ "-wallet", balance := 0 }

/-- `handlePaymentSuccess` (standalone payments.service.ts): order →
`paid_escrow` with `isPaid`, wallet upsert, and one `ESCROW_HOLD` entry of
`−amount`; no balance change. -/
def handlePaymentSuccess (s : PayState) (amount : Nat) : PayState :=
  let sellerWallet := upsertWallet s.order.sellerId s.wallet
  { s with
    order := { s.order with status := "paid_escrow", isPaid := true },
    wallet := some sellerWallet,
    entries := escrowHoldEntry sellerWallet.id s.order.id amount :: s.entries }

/-- `processPaymentStatus` (standalone payments.service.ts): updates the
payment row, then branches on the normalized status. -/
def processPaymentStatus (s : PayState) (status : String) (paidAmount : Nat) : PayState :=
  let s1 : PayState :=
    { s with payment := { s.payment with status := status, paidAmount := paidAmount } }
  if status = "settlement" ∨ status = "success" then
    handlePaymentSuccess s1 paidAmount
  else if status = "failed" ∨ status = "expired" then
    { s1 with order := { s1.order with
        status := "cancelled", cancelledAt := true,
        cancellationReason := some ("Payment " ++ status) } }
  else s1

/-- `handleWebhook` (standalone payments.service.ts): signature check,
payment lookup by `transactionId`, final-status idempotency skip, then
`processPaymentStatus`. The service wraps everything in try/catch, so it
never throws: the embedding is total and returns the validation result
together with the (possibly unchanged) state. `parse` stands for
`parseFloat` on `gross_amount`. -/
def handleWebhook (hash : String → String) (parse : String → Nat) (serverKey : String)
    (s : PayState) (n : MidtransNotif) : WebhookValidationResult × PayState :=
  if validateSignature hash serverKey n.order_id n.status_code n.gross_amount n.signature_key then
    let amount := parse n.gross_amount
    let paymentStatus := mapMidtransStatus n.transaction_status n.fraud_status
    if s.payment.transactionId = n.order_id then
      if s.payment.status ∈ finalStatuses then
        ({ isValid := true, transactionStatus := some s.payment.status,
           orderId := some s.payment.orderId, amount := some s.payment.amount }, s)
      else
        ({ isValid := true, transactionStatus := some paymentStatus,
           orderId := some s.payment.orderId, amount := some amount },
         processPaymentStatus s paymentStatus amount)
    else
      ({ isValid := false, error := some "Payment not found" }, s)
  else
    ({ isValid := false, error := some "Invalid signature" }, s)

/-- The webhook HTTP endpoint of the standalone payments controller:
`@HttpCode(HttpStatus.OK)` — it always answers 200 and only flags failure
in the body (`success`, message). -/
def handleWebhookEndpoint (hash : String → String) (parse : String → Nat)
    (serverKey : String) (s : PayState) (n : MidtransNotif) :
    (Nat × Bool × String) × PayState :=
  let r := handleWebhook hash parse serverKey s n
  if r.1.isValid then
    ((200, true, "Webhook processed successfully"), r.2)
  else
    ((200, false, r.1.error.getD "Webhook validation failed"), r.2)

/-- `releaseEscrow` (standalone payments.service.ts): `completed` guard,
prior-`ESCROW_RELEASE` idempotency skip, then one transaction that credits
the seller wallet with `price − Math.round(price × fee% / 100)` and
records the `ESCROW_RELEASE` and `PLATFORM_FEE` entries. -/
def releaseEscrow (s : PayState) : Except AppError PayState :=
  if s.order.status = "completed" then
    if s.entries.any (fun e => e.refOrderId == some s.order.id && e.type == "ESCROW_RELEASE") then
      .ok s
    else
      match s.wallet with
      | none => .error (.internal "Seller wallet not found")
      | some w =>
        let amount := s.order.price
        let platformFee := platformFeeOf amount
        let sellerAmount : Int := (amount : Int) - platformFee
        .ok { s with
          wallet := some { w with balance := w.balance + sellerAmount },
          entries := platformFeeEntry w.id s.order.id platformFee ::
            escrowReleaseEntry w.id s.order.id sellerAmount :: s.entries }
  else
    .error (.badRequest "Escrow hanya bisa dilepas untuk order yang completed")

end PaymentsA

/-- The fee formula the claim states, written from the spec for
comparison: `floor(P × F / 100)` (`Nat` division is the floor). -/
def specPlatformFee (price feePct : Nat) : Nat :=
  price * feePct / 100

/-- A completed order of price 10010 with an empty ledger and a seller
wallet at balance 0. -/
def c2state : PaymentsA.PayState :=
  { payment :=
      { id := "p1", orderId := "o1", transactionId := "T1",
        status := "settlement", amount := 10010, paidAmount := 10010 },
    order :=
      { id := "o1", buyerId := "b1", sellerId := "s1",
        status := "completed", isPaid := true, price := 10010,
        revisionCount := 0, maxRevisions := 1 },
    wallet := some { id := "w1", balance := 0 },
    entries := [] }

/-- C2 counterexample: at price P = 10010 and the configured fee
percentage F = 5, `releaseEscrow` records a `PLATFORM_FEE` of −501 —
`Math.round(10010 × 5 / 100) = 501` — while the claimed formula
`floor(P × F / 100)` gives 500, so the fee the code records is not the
floor the claim states. -/
theorem C2_fee_rounding_counterexample :
    PaymentsA.releaseEscrow c2state =
      .ok { c2state with
            wallet := some { id := "w1", balance := 9509 },
            entries := [PaymentsA.platformFeeEntry "w1" "o1" 501,
              PaymentsA.escrowReleaseEntry "w1" "o1" 9509] }
    ∧ PaymentsA.platformFeeOf 10010 = 501
    ∧ specPlatformFee 10010 PaymentsA.PLATFORM_FEE_PERCENTAGE = 500
    ∧ (501 : Nat) ≠ 500 := by
  refine ⟨rfl, rfl, rfl, by decide⟩

/-- C2 amended: for a completed order with price P (fee percentage F = 5
configured), `releaseEscrow` with no prior release records, in one unit of
work, an `ESCROW_RELEASE` of `+(P − round(P×F/100))` and a `PLATFORM_FEE`
of `−round(P×F/100)` (round half-up, not floor), both referencing the
order; fee + release still equals P exactly, and the seller wallet balance
increases by exactly the release amount. -/
theorem C2_releaseEscrow_amounts (s : PaymentsA.PayState) (w : Wallet)
    (hs : s.order.status = "completed")
    (hw : s.wallet = some w)
    (hno : s.entries.any (fun e =>
      e.refOrderId == some s.order.id && e.type == "ESCROW_RELEASE") = false) :
    PaymentsA.releaseEscrow s =
      .ok { s with
            wallet := some { w with
                             balance := w.balance +
                               ((s.order.price : Int) - PaymentsA.platformFeeOf s.order.price) },
            entries :=
              PaymentsA.platformFeeEntry w.id s.order.id (PaymentsA.platformFeeOf s.order.price) ::
                PaymentsA.escrowReleaseEntry w.id s.order.id
                  ((s.order.price : Int) - PaymentsA.platformFeeOf s.order.price) :: s.entries }
    ∧ ((s.order.price : Int) - PaymentsA.platformFeeOf s.order.price)
        + -(PaymentsA.platformFeeEntry w.id s.order.id (PaymentsA.platformFeeOf s.order.price)).amount
        = (s.order.price : Int) := by
  constructor
  · unfold PaymentsA.releaseEscrow
    rw [if_pos hs, if_neg (by simp [hno]), hw]
  · simp [PaymentsA.platformFeeEntry]

/-- Witness for C2 amended at the concrete completed order of price
10010. -/
theorem C2_releaseEscrow_amounts_witness :
    PaymentsA.releaseEscrow c2state =
      .ok { c2state with
            wallet := some { id := "w1",
                             balance := (0 : Int) +
                               ((c2state.order.price : Int) - PaymentsA.platformFeeOf c2state.order.price) },
            entries :=
              PaymentsA.platformFeeEntry "w1" c2state.order.id (PaymentsA.platformFeeOf c2state.order.price) ::
                PaymentsA.escrowReleaseEntry "w1" c2state.order.id
                  ((c2state.order.price : Int) - PaymentsA.platformFeeOf c2state.order.price) :: c2state.entries }
    ∧ ((c2state.order.price : Int) - PaymentsA.platformFeeOf c2state.order.price)
        + -(PaymentsA.platformFeeEntry "w1" c2state.order.id (PaymentsA.platformFeeOf c2state.order.price)).amount
        = (c2state.order.price : Int) :=
  C2_releaseEscrow_amounts c2state { id := "w1", balance := 0 } (by decide) (by decide) (by decide)

/-- `processPaymentStatus` always leaves the payment row at the new status
and paid amount, whatever branch runs. -/
theorem PaymentsA.processPaymentStatus_payment (s : PaymentsA.PayState) (st : String) (a : Nat) :
    (PaymentsA.processPaymentStatus s st a).payment =
      { s.payment with status := st, paidAmount := a } := by
  unfold PaymentsA.processPaymentStatus PaymentsA.handlePaymentSuccess
  split
  · rfl
  · split
    · rfl
    · rfl

/-- C3 amended: delivering the same verified payment-settlement event
twice produces a final state identical to delivering it once (the first
delivery leaves the payment at `settlement`, which the second skips), and
once the payment status is in the code's terminal list
`[settlement, success, refund, failed, expired]` any further delivery for
the same transactionId is a no-op on payment, order, wallet and ledger.
(`cancelled` is NOT in that list — see the counterexample.) -/
theorem C3_webhook_idempotent_and_terminal
    (hash : String → String) (parse : String → Nat) (serverKey : String)
    (s : PaymentsA.PayState) (n : PaymentsA.MidtransNotif) :
    (PaymentsA.mapMidtransStatus n.transaction_status n.fraud_status = "settlement" →
      (PaymentsA.handleWebhook hash parse serverKey
        (PaymentsA.handleWebhook hash parse serverKey s n).2 n).2 =
        (PaymentsA.handleWebhook hash parse serverKey s n).2)
    ∧ (s.payment.status ∈ PaymentsA.finalStatuses →
        (PaymentsA.handleWebhook hash parse serverKey s n).2 = s) := by
  constructor
  · intro hsettle
    by_cases hsig : PaymentsA.validateSignature hash serverKey
        n.order_id n.status_code n.gross_amount n.signature_key = true
    · by_cases htid : s.payment.transactionId = n.order_id
      · by_cases hfin : s.payment.status ∈ PaymentsA.finalStatuses
        · simp [PaymentsA.handleWebhook, hsig, htid, hfin]
        · have h1 : (PaymentsA.handleWebhook hash parse serverKey s n).2
              = PaymentsA.processPaymentStatus s "settlement" (parse n.gross_amount) := by
            simp only [PaymentsA.handleWebhook]
            rw [hsettle, if_pos hsig, if_pos htid, if_neg hfin]
          have hpay := PaymentsA.processPaymentStatus_payment s "settlement" (parse n.gross_amount)
          rw [h1]
          simp only [PaymentsA.handleWebhook]
          rw [if_pos hsig,
            if_pos (show (PaymentsA.processPaymentStatus s "settlement"
                (parse n.gross_amount)).payment.transactionId = n.order_id by
              rw [hpay]; exact htid),
            if_pos (show (PaymentsA.processPaymentStatus s "settlement"
                (parse n.gross_amount)).payment.status ∈ PaymentsA.finalStatuses by
              rw [hpay]; simp [PaymentsA.finalStatuses])]
      · simp [PaymentsA.handleWebhook, hsig, htid]
    · simp [PaymentsA.handleWebhook, hsig]
  · intro hfin
    by_cases hsig : PaymentsA.validateSignature hash serverKey
        n.order_id n.status_code n.gross_amount n.signature_key = true
    · by_cases htid : s.payment.transactionId = n.order_id
      · simp [PaymentsA.handleWebhook, hsig, htid, hfin]
      · simp [PaymentsA.handleWebhook, hsig, htid]
    · simp [PaymentsA.handleWebhook, hsig]

/-- `parseFloat` on the concrete gross amount "10000". -/
def c3parse : String → Nat := fun _ => 10000

/-- A pending payment awaiting its settlement webhook. -/
def c3pending : PaymentsA.PayState :=
  { payment :=
      { id := "p1", orderId := "o1", transactionId := "T1",
        status := "pending", amount := 10000, paidAmount := 0 },
    order :=
      { id := "o1", buyerId := "b1", sellerId := "s1",
        status := "waiting_payment", isPaid := false, price := 10000,
        revisionCount := 0, maxRevisions := 1 },
    wallet := none,
    entries := [] }

/-- The same store state with the payment already settled. -/
def c3settled : PaymentsA.PayState :=
  { c3pending with payment := { c3pending.payment with status := "settlement" } }

/-- The same store state with the payment at status `cancelled`. -/
def c3cancelled : PaymentsA.PayState :=
  { c3pending with payment := { c3pending.payment with status := "cancelled" } }

/-- A settlement notification for transaction T1 whose signature is valid
under the identity digest and server key "KEY". -/
def c3notif : PaymentsA.MidtransNotif :=
  { order_id := "T1", transaction_status := "settlement", status_code := "200",
    gross_amount := "10000", signature_key := "T120010000KEY" }

/-- Witness for C3 amended: the double settlement delivery on a pending
payment, and a no-op delivery on an already settled payment. -/
theorem C3_webhook_idempotent_and_terminal_witness :
    (PaymentsA.handleWebhook id c3parse "KEY"
      (PaymentsA.handleWebhook id c3parse "KEY" c3pending c3notif).2 c3notif).2 =
      (PaymentsA.handleWebhook id c3parse "KEY" c3pending c3notif).2
    ∧ (PaymentsA.handleWebhook id c3parse "KEY" c3settled c3notif).2 = c3settled :=
  ⟨(C3_webhook_idempotent_and_terminal id c3parse "KEY" c3pending c3notif).1 (by decide),
   (C3_webhook_idempotent_and_terminal id c3parse "KEY" c3settled c3notif).2 (by decide)⟩

/-- C3 counterexample: `cancelled` is not in the code's terminal list, so
a payment at status `cancelled` that receives a (validly signed)
settlement webhook is re-processed: the payment flips to `settlement`, the
order and wallet are touched and a new `ESCROW_HOLD` ledger entry is
created — not the no-op the claim states for terminal statuses. -/
theorem C3_cancelled_reprocessed_counterexample :
    c3cancelled.payment.status = "cancelled"
    ∧ (PaymentsA.handleWebhook id c3parse "KEY" c3cancelled c3notif).2.payment.status
        = "settlement"
    ∧ (PaymentsA.handleWebhook id c3parse "KEY" c3cancelled c3notif).2.entries.length
        = c3cancelled.entries.length + 1
    ∧ (PaymentsA.handleWebhook id c3parse "KEY" c3cancelled c3notif).2.entries.map
        (fun e => e.type) = ["ESCROW_HOLD"] := by
  refine ⟨rfl, rfl, rfl, rfl⟩

namespace PaymentsB

/-- A `Payment` row of the event-driven payments service (keyed by
`orderId`). -/
structure PaymentRow where
  id : String
  orderId : String
  status : String
  transactionId : Option String := none
  paymentType : Option String := none
  deriving Repr, DecidableEq

/-- The store state one webhook delivery of the event-driven variant
touches: the payment looked up by `orderId` (`none` when absent) and the
list of events emitted on the in-process bus. -/
structure PayStateB where
  payment : Option PaymentRow
  events : List (String × String)
  deriving Repr, DecidableEq

/-- The Midtrans payload fields the event-driven webhook reads. -/
structure PayloadB where
  order_id : String
  transaction_status : String
  transaction_id : String
  status_code : String
  gross_amount : String
  signature_key : String
  payment_type : String
  deriving Repr, DecidableEq

/-- `verifySignature` (event-driven payments.service.ts): the expected
signature is `hmac-sha512` keyed by the server key over
`orderId ++ statusCode ++ grossAmount ++ serverKey`. The HMAC digest is an
external library call and is a parameter; the key, the concatenation
order and the comparison are the source's. -/
def verifySignature (hmac : String → String → String)
    (orderId statusCode grossAmount serverKey : String) : String :=
  hmac serverKey (orderId ++ statusCode ++ grossAmount ++ serverKey)

/-- `handlePaymentWebhook` (event-driven payments.service.ts): throws
`BadRequestException` on a signature mismatch and `NotFoundException` on
an unknown payment — both before any write, so an `error` result leaves
the state unchanged; otherwise maps the raw transaction status, updates
the payment row, and emits `payment.settled` when settled. -/
def handlePaymentWebhook (hmac : String → String → String) (serverKey : String)
    (s : PayStateB) (pl : PayloadB) : Except AppError (String × PayStateB) :=
  let expectedSignature :=
    verifySignature hmac pl.order_id pl.status_code pl.gross_amount serverKey
  if pl.signature_key = expectedSignature then
    match s.payment with
    | none => .error (.notFound "Payment record not found")
    | some payment =>
      if payment.orderId = pl.order_id then
        if payment.status = "settlement" ∧ pl.transaction_status = "settlement" then
          .ok ("Payment already processed", s)
        else
          let updatedStatus :=
            if pl.transaction_status = "settlement" ∨ pl.transaction_status = "capture" then
              "settlement"
            else if pl.transaction_status = "pending" then "pending"
            else if pl.transaction_status = "expire" then "expire"
            else if pl.transaction_status = "cancel" ∨ pl.transaction_status = "deny" then
              "cancelled"
            else payment.status
          let p1 : PaymentRow :=
            { payment with
              status := updatedStatus,
              transactionId := some pl.transaction_id,
              paymentType := some pl.payment_type }
          let s1 : PayStateB :=
            { payment := some p1,
              events := if updatedStatus = "settlement"
                then ("payment.settled", pl.order_id) :: s.events else s.events }
          .ok ("Payment status updated to " ++ updatedStatus, s1)
      else .error (.notFound "Payment record not found")
  else .error (.badRequest "Invalid signature")

/-- The `POST payments/webhook` endpoint of the module-wired payments
controller (src/payments/payments.controller.ts): it calls
`handlePaymentWebhook` with no try/catch, so a thrown exception escapes
the handler. -/
def paymentWebhook (hmac : String → String → String) (serverKey : String)
    (s : PayStateB) (pl : PayloadB) :
    Except AppError ((Nat × Bool × String) × PayStateB) :=
  match handlePaymentWebhook hmac serverKey s pl with
  | .ok (msg, s1) => .ok ((200, true, msg), s1)
  | .error e => .error e

end PaymentsB

/-- The HTTP status the provider observes: 200 for a returned response;
for an escaped exception, the status NestJS's default exception filter
assigns to that exception class (400 BadRequest, 404 NotFound, ...). -/
def nestHttpStatus {α : Type} : Except AppError α → Nat
  | .ok _ => 200
  | .error (.notFound _) => 404
  | .error (.badRequest _) => 400
  | .error (.forbidden _) => 403
  | .error (.conflict _) => 409
  | .error (.internal _) => 500

/-- C5: in both payment-service variants, a webhook whose supplied
signature differs from the recomputed keyed digest over
(order_id, status_code, gross_amount, serverKey) is rejected — the
standalone variant returns `isValid = false` with the unchanged state, the
event-driven variant throws `BadRequestException` before any write — so no
payment, order, wallet or ledger state is mutated by that call. -/
theorem C5_signature_mismatch_no_mutation
    (hash : String → String) (parse : String → Nat) (serverKey : String)
    (s : PaymentsA.PayState) (n : PaymentsA.MidtransNotif)
    (hmac : String → String → String) (serverKeyB : String)
    (sB : PaymentsB.PayStateB) (pl : PaymentsB.PayloadB)
    (hA : hash (n.order_id ++ n.status_code ++ n.gross_amount ++ serverKey) ≠ n.signature_key)
    (hB : pl.signature_key ≠
      PaymentsB.verifySignature hmac pl.order_id pl.status_code pl.gross_amount serverKeyB) :
    PaymentsA.handleWebhook hash parse serverKey s n =
      ({ isValid := false, error := some "Invalid signature" }, s)
    ∧ PaymentsB.handlePaymentWebhook hmac serverKeyB sB pl =
        .error (.badRequest "Invalid signature") := by
  constructor
  · simp only [PaymentsA.handleWebhook]
    rw [if_neg (by simp [PaymentsA.validateSignature, hA])]
  · simp only [PaymentsB.handlePaymentWebhook]
    rw [if_neg hB]

/-- A digest stub returning a fixed string. -/
def c5hash : String → String := fun _ => "HH"

/-- An HMAC stub returning a fixed string. -/
def c5hmac : String → String → String := fun _ _ => "MM"

/-- A notification whose signature matches neither stub digest. -/
def c5notifBad : PaymentsA.MidtransNotif :=
  { order_id := "T1", transaction_status := "settlement", status_code := "200",
    gross_amount := "10000", signature_key := "WRONG" }

/-- A pending payment row for the event-driven variant. -/
def c5stateB : PaymentsB.PayStateB :=
  { payment := some { id := "p1", orderId := "o1", status := "pending" },
    events := [] }

/-- A payload for the event-driven variant whose signature is wrong. -/
def c5plBad : PaymentsB.PayloadB :=
  { order_id := "o1", transaction_status := "settlement", transaction_id := "TX",
    status_code := "200", gross_amount := "10000", signature_key := "WRONG",
    payment_type := "qris" }

/-- Witness for C5 at concrete states, digests and payloads. -/
theorem C5_signature_mismatch_no_mutation_witness :
    PaymentsA.handleWebhook c5hash c3parse "KEY" c3pending c5notifBad =
      ({ isValid := false, error := some "Invalid signature" }, c3pending)
    ∧ PaymentsB.handlePaymentWebhook c5hmac "KEY" c5stateB c5plBad =
        .error (.badRequest "Invalid signature") :=
  C5_signature_mismatch_no_mutation c5hash c3parse "KEY" c3pending c5notifBad
    c5hmac "KEY" c5stateB c5plBad (by decide) (by decide)

/-- C9 amended: the standalone webhook endpoint answers HTTP 200 on every
delivery, flagging failures only in the body; but the module-wired
endpoint (payments.controller.ts calling `handlePaymentWebhook` without a
catch) propagates the invalid-signature exception, which NestJS turns
into a provider-visible HTTP 400. -/
theorem C9_webhook_http_status
    (hash : String → String) (parse : String → Nat) (serverKey : String)
    (s : PaymentsA.PayState) (n : PaymentsA.MidtransNotif)
    (hmac : String → String → String) (serverKeyB : String)
    (sB : PaymentsB.PayStateB) (pl : PaymentsB.PayloadB)
    (hB : pl.signature_key ≠
      PaymentsB.verifySignature hmac pl.order_id pl.status_code pl.gross_amount serverKeyB) :
    (PaymentsA.handleWebhookEndpoint hash parse serverKey s n).1.1 = 200
    ∧ nestHttpStatus (PaymentsB.paymentWebhook hmac serverKeyB sB pl) = 400 := by
  constructor
  · unfold PaymentsA.handleWebhookEndpoint
    by_cases h : (PaymentsA.handleWebhook hash parse serverKey s n).1.isValid = true
    · rw [if_pos h]
    · rw [if_neg h]
  · have h : PaymentsB.handlePaymentWebhook hmac serverKeyB sB pl =
        .error (.badRequest "Invalid signature") := by
      simp only [PaymentsB.handlePaymentWebhook]
      rw [if_neg hB]
    unfold PaymentsB.paymentWebhook
    rw [h]
    rfl

/-- C9 counterexample: a single delivery with a wrong signature to the
module-wired endpoint yields HTTP 400 — a provider-visible failure, not
the success response the claim states. -/
theorem C9_invalid_signature_http400_counterexample :
    nestHttpStatus (PaymentsB.paymentWebhook c5hmac "KEY" c5stateB c5plBad) = 400
    ∧ (400 : Nat) ≠ 200 := by
  refine ⟨rfl, by decide⟩

/-- Witness for C9 amended at concrete states and payloads. -/
theorem C9_webhook_http_status_witness :
    (PaymentsA.handleWebhookEndpoint c5hash c3parse "KEY" c3pending c5notifBad).1.1 = 200
    ∧ nestHttpStatus (PaymentsB.paymentWebhook c5hmac "KEY" c5stateB c5plBad) = 400 :=
  C9_webhook_http_status c5hash c3parse "KEY" c3pending c5notifBad
    c5hmac "KEY" c5stateB c5plBad (by decide)

namespace AdminService

/-- A `Dispute` row. -/
structure Dispute where
  id : String
  orderId : String
  openedById : String
  reason : String
  status : String
  resolution : Option String := none
  adminNotes : Option String := none
  resolvedById : Option String := none
  resolvedAt : Bool := false
  deriving Repr, DecidableEq

/-- The store state `resolveDispute` can reach inside its transaction: the
dispute, its order, the seller wallet, the ledger, and the number of
notifications written. -/
structure AdminState where
  dispute : Dispute
  order : Order
  sellerWallet : Wallet
  entries : List LedgerEntry
  notificationsWritten : Nat := 0
  deriving Repr, DecidableEq

/-- `AdminService.resolveDispute` (admin.service.ts): OPEN guard, then one
transaction that updates the dispute row to RESOLVED (resolution,
adminNotes, resolvedById, resolvedAt) and writes two notifications. The
source performs no other write: it never updates the order row and calls
no escrow release or refund. -/
def resolveDispute (adminId : String) (s : AdminState)
    (resolution adminNotes : String) : Except AppError AdminState :=
  if s.dispute.status = "OPEN" then
    .ok { s with
          dispute :=
            { s.dispute with
              status := "RESOLVED", resolution := some resolution,
              adminNotes := some adminNotes, resolvedById := some adminId,
              resolvedAt := true },
          notificationsWritten := s.notificationsWritten + 2 }
  else
    .error (.badRequest "Sengketa ini sudah diselesaikan")

end AdminService

/-- C1 (code divergence): resolving an OPEN dispute marks the dispute
RESOLVED with `resolvedById`/`resolvedAt`, but leaves the order row —
including its `disputed` status — and the ledger and seller wallet
completely unchanged, for either resolution value: the escrow
release/refund and the order transition the claim requires never
happen. -/
theorem C1_resolveDispute_leaves_order_disputed
    (s : AdminService.AdminState) (adminId resolution notes : String)
    (hopen : s.dispute.status = "OPEN") :
    ∃ s1, AdminService.resolveDispute adminId s resolution notes = .ok s1
      ∧ s1.dispute.status = "RESOLVED"
      ∧ s1.dispute.resolvedById = some adminId
      ∧ s1.dispute.resolvedAt = true
      ∧ s1.order = s.order
      ∧ s1.entries = s.entries
      ∧ s1.sellerWallet = s.sellerWallet := by
  unfold AdminService.resolveDispute
  rw [if_pos hopen]
  exact ⟨_, rfl, rfl, rfl, rfl, rfl, rfl, rfl⟩

/-- A disputed order with an OPEN dispute awaiting resolution. -/
def c1state : AdminService.AdminState :=
  { dispute :=
      { id := "d1", orderId := "o1", openedById := "b1",
        reason := "not delivered as agreed", status := "OPEN" },
    order :=
      { id := "o1", buyerId := "b1", sellerId := "s1",
        status := "disputed", isPaid := true, price := 100000,
        revisionCount := 0, maxRevisions := 1 },
    sellerWallet := { id := "wS", balance := 0 },
    entries := [PaymentsA.escrowHoldEntry "wS" "o1" 100000] }

/-- Witness for C1 at the concrete OPEN dispute on a disputed order,
resolved with RELEASE_TO_SELLER: the order is still `disputed` after the
resolve and the ledger is untouched. -/
theorem C1_resolveDispute_leaves_order_disputed_witness :
    ∃ s1, AdminService.resolveDispute "admin1" c1state "RELEASE_TO_SELLER"
        "buyer did not respond within the window" = .ok s1
      ∧ s1.dispute.status = "RESOLVED"
      ∧ s1.dispute.resolvedById = some "admin1"
      ∧ s1.dispute.resolvedAt = true
      ∧ s1.order = c1state.order
      ∧ s1.entries = c1state.entries
      ∧ s1.sellerWallet = c1state.sellerWallet :=
  C1_resolveDispute_leaves_order_disputed c1state "admin1" "RELEASE_TO_SELLER"
    "buyer did not respond within the window" (by decide)

namespace OrdersService

/-- Modelled from the spec: `WalletsService.createTransaction`
(src/wallets/wallets.service.ts is not among the sources; only its callers
in orders.service.ts and admin.service.ts are). Per spec section 4.2,
`applyEntry` inserts one LedgerEntry within the caller's unit of work,
adjusts wallet.balance by the signed amount, and rejects with
ResourceConflict when an entry with the same (refOrderId, type) pair
already exists. -/
def createTransaction (w : Wallet) (entries : List LedgerEntry) (ty : String)
    (amount : Int) (refOrderId : Option String) :
    Except AppError (Wallet × List LedgerEntry) :=
  if entries.any (fun e => e.refOrderId == refOrderId && e.type == ty) then
    .error (.conflict "Duplicate ledger entry for this reference and type")
  else
    .ok ({ w with balance := w.balance + amount },
      { walletId := w.id, type := ty, amount := amount, refOrderId := refOrderId }
        :: entries)

/-- The store state `cancelOrder` can touch: the order, the buyer and
seller wallets, and the ledger. -/
structure OrderState where
  order : Order
  buyerWallet : Wallet
  sellerWallet : Wallet
  entries : List LedgerEntry
  deriving Repr, DecidableEq

/-- The `cancellableStatuses` array of `cancelOrder` (orders.service.ts). -/
def cancellableStatuses : List String := ["draft", "waiting_payment", "paid_escrow"]

/-- `OrdersService.cancelOrder` (orders.service.ts): role-scoped lookup,
cancellable-status guard, then: if `isPaid`, one transaction that sets the
order cancelled and credits the full price to the buyer wallet as an
`ESCROW_REFUND` entry via `WalletsService.createTransaction`; otherwise a
plain order update. -/
def cancelOrder (s : OrderState) (userId role : String) (reason : Option String) :
    Except AppError OrderState :=
  if (if role = "buyer" then s.order.buyerId = userId else s.order.sellerId = userId) then
    if s.order.status ∈ cancellableStatuses then
      if s.order.isPaid then
        match createTransaction s.buyerWallet s.entries "ESCROW_REFUND"
            (s.order.price : Int) (some s.order.id) with
        | .error e => .error e
        | .ok (bw, es) =>
          .ok { s with
                order := { s.order with
                  status := "cancelled", cancelledAt := true,
                  cancellationReason := reason },
                buyerWallet := bw, entries := es }
      else
        .ok { s with
              order := { s.order with
                status := "cancelled", cancelledAt := true,
                cancellationReason := reason } }
    else
      .error (.badRequest "Order dengan status ini tidak bisa dibatalkan")
  else
    .error (.notFound "Order tidak ditemukan")

end OrdersService

/-- A paid escrow order (price 100000) whose ledger holds the seller-side
`ESCROW_HOLD` created at payment time. -/
def c6state : OrdersService.OrderState :=
  { order :=
      { id := "o1", buyerId := "b1", sellerId := "s1",
        status := "paid_escrow", isPaid := true, price := 100000,
        revisionCount := 0, maxRevisions := 1 },
    buyerWallet := { id := "wB", balance := 0 },
    sellerWallet := { id := "wS", balance := 0 },
    entries := [PaymentsA.escrowHoldEntry "wS" "o1" 100000] }

/-- The state `cancelOrder` produces on `c6state`. -/
def c6result : OrdersService.OrderState :=
  { order :=
      { id := "o1", buyerId := "b1", sellerId := "s1",
        status := "cancelled", isPaid := true, price := 100000,
        revisionCount := 0, maxRevisions := 1, cancelledAt := true,
        cancellationReason := some "batal" },
    buyerWallet := { id := "wB", balance := 100000 },
    sellerWallet := { id := "wS", balance := 0 },
    entries :=
      [{ walletId := "wB", type := "ESCROW_REFUND", amount := 100000,
         refOrderId := some "o1" },
       PaymentsA.escrowHoldEntry "wS" "o1" 100000] }

/-- C6 counterexample: cancelling a paid `paid_escrow` order records an
entry of type `ESCROW_REFUND` (not the `REFUND` the claim names), credited
to the buyer wallet; the seller wallet's hold entry is never reversed, so
the seller wallet's combined ledger net from hold plus refund is −100000,
not zero. -/
theorem C6_refund_type_seller_net_counterexample :
    OrdersService.cancelOrder c6state "b1" "buyer" (some "batal") = .ok c6result
    ∧ c6result.entries.map (fun e => e.type) = ["ESCROW_REFUND", "ESCROW_HOLD"]
    ∧ (c6result.entries.filter (fun e => e.type == "REFUND")).length = 0
    ∧ ledgerNetFor c6result.entries "wS" "o1" = -100000
    ∧ (-100000 : Int) ≠ 0 := by
  refine ⟨rfl, rfl, rfl, by decide, by decide⟩

/-- C6 amended: `cancelOrder` by the buyer succeeds from `paid_escrow`
(and fails with the invalid-state error from any status outside
draft/waiting_payment/paid_escrow); for a paid order the same unit of work
sets the order cancelled and records one `ESCROW_REFUND` entry of the full
price credited to the buyer wallet; the seller wallet is untouched (its
escrow hold is not reversed). -/
theorem C6_cancel_paid_escrow_refund
    (s : OrdersService.OrderState) (userId : String) (reason : Option String)
    (hb : s.order.buyerId = userId)
    (hst : s.order.status = "paid_escrow")
    (hpaid : s.order.isPaid = true)
    (hno : s.entries.any (fun e =>
      e.refOrderId == some s.order.id && e.type == "ESCROW_REFUND") = false) :
    OrdersService.cancelOrder s userId "buyer" reason =
      .ok { s with
            order := { s.order with
              status := "cancelled", cancelledAt := true,
              cancellationReason := reason },
            buyerWallet := { s.buyerWallet with
              balance := s.buyerWallet.balance + s.order.price },
            entries :=
              { walletId := s.buyerWallet.id, type := "ESCROW_REFUND",
                amount := (s.order.price : Int), refOrderId := some s.order.id }
                :: s.entries }
    ∧ (∀ (t : OrdersService.OrderState) (u ro : String) (r : Option String),
        (if ro = "buyer" then t.order.buyerId = u else t.order.sellerId = u) →
        t.order.status ∉ OrdersService.cancellableStatuses →
        OrdersService.cancelOrder t u ro r =
          .error (.badRequest "Order dengan status ini tidak bisa dibatalkan")) := by
  constructor
  · have hct : OrdersService.createTransaction s.buyerWallet s.entries "ESCROW_REFUND"
        (s.order.price : Int) (some s.order.id) =
        .ok ({ s.buyerWallet with balance := s.buyerWallet.balance + s.order.price },
          { walletId := s.buyerWallet.id, type := "ESCROW_REFUND",
            amount := (s.order.price : Int), refOrderId := some s.order.id }
            :: s.entries) := by
      unfold OrdersService.createTransaction
      rw [if_neg (by simp [hno])]
    unfold OrdersService.cancelOrder
    rw [if_pos (by simp [hb]), if_pos (by rw [hst]; decide), if_pos hpaid, hct]
  · intro t u ro r hacc hnost
    unfold OrdersService.cancelOrder
    rw [if_pos hacc, if_neg hnost]

/-- Witness for C6 amended at the concrete paid escrow order. -/
theorem C6_cancel_paid_escrow_refund_witness :
    OrdersService.cancelOrder c6state "b1" "buyer" (some "batal") =
      .ok { c6state with
            order := { c6state.order with
              status := "cancelled", cancelledAt := true,
              cancellationReason := some "batal" },
            buyerWallet := { c6state.buyerWallet with
              balance := c6state.buyerWallet.balance + c6state.order.price },
            entries :=
              { walletId := c6state.buyerWallet.id, type := "ESCROW_REFUND",
                amount := (c6state.order.price : Int), refOrderId := some c6state.order.id }
                :: c6state.entries } :=
  (C6_cancel_paid_escrow_refund c6state "b1" (some "batal")
    (by decide) (by decide) (by decide) (by decide)).1

/-- C10: for an unpaid order in `draft` or `waiting_payment`, `cancelOrder`
is a pure order update: the result state equals the input state with only
the order's status, cancelledAt and cancellationReason changed — wallets
and ledger are untouched. -/
theorem C10_cancel_unpaid_frame
    (s : OrdersService.OrderState) (userId role : String) (reason : Option String)
    (hacc : if role = "buyer" then s.order.buyerId = userId else s.order.sellerId = userId)
    (hst : s.order.status = "draft" ∨ s.order.status = "waiting_payment")
    (hnp : s.order.isPaid = false) :
    OrdersService.cancelOrder s userId role reason =
      .ok { s with order := { s.order with
              status := "cancelled", cancelledAt := true,
              cancellationReason := reason } } := by
  unfold OrdersService.cancelOrder
  rw [if_pos hacc,
    if_pos (by rcases hst with h | h <;> simp [OrdersService.cancellableStatuses, h]),
    if_neg (by simp [hnp])]

/-- An unpaid draft order with nonempty wallets and ledger, to make the
frame visible. -/
def c10state : OrdersService.OrderState :=
  { order :=
      { id := "o2", buyerId := "b2", sellerId := "s2",
        status := "draft", isPaid := false, price := 75000,
        revisionCount := 0, maxRevisions := 2 },
    buyerWallet := { id := "wB2", balance := 11 },
    sellerWallet := { id := "wS2", balance := 22 },
    entries := [PaymentsA.escrowHoldEntry "wS2" "oX" 5] }

/-- Witness for C10 at the concrete unpaid draft order, cancelled by its
buyer. -/
theorem C10_cancel_unpaid_frame_witness :
    OrdersService.cancelOrder c10state "b2" "buyer" (some "tidak jadi") =
      .ok { c10state with order := { c10state.order with
              status := "cancelled", cancelledAt := true,
              cancellationReason := some "tidak jadi" } } :=
  C10_cancel_unpaid_frame c10state "b2" "buyer" (some "tidak jadi")
    (by decide) (by decide) (by decide)

namespace PaymentsB

/-- A `Payment` row as the event-driven `createPayment` writes it. -/
structure PaymentSession where
  orderId : String
  amount : Nat
  status : String
  gatewayToken : Option String := none
  gatewayRedirectUrl : Option String := none
  deriving Repr, DecidableEq

/-- The store state order confirmation touches: the order, its payment row
(`none` when absent) and the ledger. -/
structure ConfirmState where
  order : Order
  payment : Option PaymentSession
  entries : List LedgerEntry
  deriving Repr, DecidableEq

/-- The `snap.createTransaction` call and the payment upsert of
`createPayment` (event-driven payments.service.ts). The gateway outcome is
a parameter: `some (token, redirectUrl)` for a successful session,
`none` for an upstream failure, in which case the catch block throws
`InternalServerErrorException` and nothing has been written. -/
def createPaymentSession (gateway : Option (String × String)) (s : ConfirmState) :
    (Except AppError (String × String)) × ConfirmState :=
  match gateway with
  | none => (.error (.internal "Gagal membuat sesi pembayaran"), s)
  | some (token, redirectUrl) =>
    (.ok (token, redirectUrl),
     { s with
       payment := some
         { orderId := s.order.id, amount := s.order.price, status := "pending",
           gatewayToken := some token, gatewayRedirectUrl := some redirectUrl } })

/-- `createPayment` (event-driven payments.service.ts): returns the
existing pending session if one exists, otherwise calls the gateway and
upserts the payment row. -/
def createPayment (gateway : Option (String × String)) (s : ConfirmState) :
    (Except AppError (String × String)) × ConfirmState :=
  match s.payment with
  | some p =>
    if p.status = "pending" then
      (.ok (p.gatewayToken.getD "", p.gatewayRedirectUrl.getD ""), s)
    else
      createPaymentSession gateway s
  | none => createPaymentSession gateway s

end PaymentsB

namespace OrdersService

/-- `OrdersService.confirmOrder` (orders.service.ts): buyer access check,
`draft` guard, then — with no enclosing transaction — first persists the
order at `waiting_payment` and only then calls
`paymentsService.createPayment`; an exception there leaves the already
written order update in place, which the returned state records. -/
def confirmOrder (gateway : Option (String × String)) (s : PaymentsB.ConfirmState)
    (buyerId : String) : (Except AppError (String × String)) × PaymentsB.ConfirmState :=
  if s.order.buyerId = buyerId then
    if s.order.status = "draft" then
      let s1 : PaymentsB.ConfirmState :=
        { s with order := { s.order with status := "waiting_payment" } }
      PaymentsB.createPayment gateway s1
    else
      (.error (.badRequest "Hanya order dengan status draft yang bisa dikonfirmasi"), s)
  else
    (.error (.notFound "Order tidak ditemukan"), s)

end OrdersService

/-- A draft order with no payment session yet. -/
def c7state : PaymentsB.ConfirmState :=
  { order :=
      { id := "o1", buyerId := "b1", sellerId := "s1",
        status := "draft", isPaid := false, price := 100000,
        revisionCount := 0, maxRevisions := 1 },
    payment := none,
    entries := [] }

/-- C7 counterexample: when the gateway call fails during confirmation of
a draft order, the upstream error surfaces and no payment or ledger row
exists — but the order has already been persisted at `waiting_payment`, so
retrying the confirmation fails with the invalid-state error even once the
gateway is healthy again: the confirmation is not safely retryable. -/
theorem C7_confirm_retry_counterexample :
    (OrdersService.confirmOrder none c7state "b1").1 =
      .error (.internal "Gagal membuat sesi pembayaran")
    ∧ (OrdersService.confirmOrder none c7state "b1").2.order.status = "waiting_payment"
    ∧ (OrdersService.confirmOrder none c7state "b1").2.entries = []
    ∧ (OrdersService.confirmOrder none c7state "b1").2.payment = none
    ∧ (OrdersService.confirmOrder (some ("tok", "url"))
        (OrdersService.confirmOrder none c7state "b1").2 "b1").1 =
      .error (.badRequest "Hanya order dengan status draft yang bisa dikonfirmasi") := by
  refine ⟨rfl, rfl, rfl, rfl, rfl⟩

/-- C7 amended: a gateway failure during confirmation surfaces as the
upstream error and creates no ledger or payment state, but the order has
already moved to `waiting_payment`; a retry of the confirmation itself
fails with the invalid-state error for every gateway outcome (payment must
instead be retried against the now waiting_payment order). -/
theorem C7_confirm_gateway_failure
    (s : PaymentsB.ConfirmState) (buyerId : String)
    (hb : s.order.buyerId = buyerId)
    (hd : s.order.status = "draft")
    (hp : s.payment = none) :
    OrdersService.confirmOrder none s buyerId =
      (.error (.internal "Gagal membuat sesi pembayaran"),
       { s with order := { s.order with status := "waiting_payment" } })
    ∧ (∀ g, (OrdersService.confirmOrder g
        (OrdersService.confirmOrder none s buyerId).2 buyerId).1 =
        .error (.badRequest "Hanya order dengan status draft yang bisa dikonfirmasi")) := by
  have h1 : OrdersService.confirmOrder none s buyerId =
      (.error (.internal "Gagal membuat sesi pembayaran"),
       { s with order := { s.order with status := "waiting_payment" } }) := by
    unfold OrdersService.confirmOrder
    rw [if_pos hb, if_pos hd]
    simp only [PaymentsB.createPayment, hp]
    rfl
  refine ⟨h1, ?_⟩
  intro g
  rw [h1]
  unfold OrdersService.confirmOrder
  rw [if_pos (by simpa using hb), if_neg (by simp)]

/-- Witness for C7 amended at the concrete draft order with a failing
gateway. -/
theorem C7_confirm_gateway_failure_witness :
    OrdersService.confirmOrder none c7state "b1" =
      (.error (.internal "Gagal membuat sesi pembayaran"),
       { c7state with order := { c7state.order with status := "waiting_payment" } })
    ∧ (∀ g, (OrdersService.confirmOrder g
        (OrdersService.confirmOrder none c7state "b1").2 "b1").1 =
        .error (.badRequest "Hanya order dengan status draft yang bisa dikonfirmasi")) :=
  C7_confirm_gateway_failure c7state "b1" (by decide) (by decide) (by decide)
